import Mathlib

/- Verification of the retail markdown metrics core.

   The program under study has two source files:
   * `markdown_metrics.py` — `compute_stage_metrics(df)`: iterates the rows
     of a wide-form product frame and, for each of the four stages
     `("M1","Markdown_1","Sales_After_M1") .. ("M4","Markdown_4","Sales_After_M4")`,
     appends a long-form record with `Revenue = (Original_Price*(1-markdown))*sales`
     and `Sell_through = sales/stock if stock > 0 else 0.0`.
   * `streamlit_app.py` — reshapes the filtered frame into `markdown_data`
     (same stage loop, carrying `Product_ID`), and selects
     `best_per_product = markdown_df.loc[markdown_df.groupby("Product_ID")["Revenue"].idxmax()]`.

   Two embeddings are used:
   * a structural one over a typed `ProductRecord` (all fields present and
     numeric), for the functional claims; and
   * a dynamic one over string-keyed rows of tagged values, mirroring how
     pandas row indexing fails (`row[k]` raises `KeyError k` when the key is
     absent; arithmetic on a non-number raises `TypeError`), for the
     error-path claims.  Machine floats are modelled by `ℚ`.
-/

namespace MarkdownOpt

/-- A value held in a dynamic (pandas-style) row: a number or a string. -/
inductive Value where
  | num (q : ℚ)
  | str (s : String)
deriving DecidableEq

/-- Errors of the dynamic model.  `keyError`, `typeError` and
`zeroDivisionError` mirror the Python exceptions that pandas row access and
arithmetic can raise.  `schemaError` and `emptyGroupError` are modelled from
the spec: the error taxonomy of the spec names `SchemaError` and `EmptyGroupError`,
but no such classes exist anywhere in the source; the constructors exist only
so that theorems can compare the actual failures of the source against them. -/
inductive PyErr where
  | keyError (k : String)
  | typeError
  | zeroDivisionError
  | schemaError
  | emptyGroupError
deriving DecidableEq

/-- A dynamic row: an association list from column names to values. -/
abbrev Dict := List (String × Value)

/-- Lookup of a column in a dynamic row. -/
def dlookup (k : String) : Dict → Option Value
  | [] => none
  | (k2, v) :: t => if k2 = k then some v else dlookup k t

/-- Whether an optional value is present and numeric. -/
def isNumO : Option Value → Bool
  | some (Value.num _) => true
  | _ => false

/-- `row[k]` in Python: the value if the key is present, `KeyError k` if not. -/
def dget (row : Dict) (k : String) : Except PyErr Value :=
  match dlookup k row with
  | some v => Except.ok v
  | none => Except.error (PyErr.keyError k)

/-- Python subtraction on dynamic values: `TypeError` unless both are numbers. -/
def vSub : Value → Value → Except PyErr Value
  | Value.num x, Value.num y => Except.ok (Value.num (x - y))
  | _, _ => Except.error PyErr.typeError

/-- Python string repetition: `s` concatenated `n` times. -/
def strRepeat (s : String) : ℕ → String
  | 0 => ""
  | n + 1 => s ++ strRepeat s n

/-- Python multiplication on dynamic values.  Two numbers multiply.  A
Python `int` times a string (either order) is sequence repetition —
`5 * "ab"` is `"ababababab"` and a non-positive count gives `""` — while a
`float` times a string, or two strings, raise `TypeError`.  A rational with
denominator 1 models an `int`, any other rational a `float` (`Int.toNat`
already clamps a negative count to 0). -/
def vMul : Value → Value → Except PyErr Value
  | Value.num x, Value.num y => Except.ok (Value.num (x * y))
  | Value.num x, Value.str s =>
      if x.den = 1 then Except.ok (Value.str (strRepeat s x.num.toNat))
      else Except.error PyErr.typeError
  | Value.str s, Value.num y =>
      if y.den = 1 then Except.ok (Value.str (strRepeat s y.num.toNat))
      else Except.error PyErr.typeError
  | Value.str _, Value.str _ => Except.error PyErr.typeError

/-- Python `>` on dynamic values: two numbers compare, two strings compare
lexicographically, a number against a string raises `TypeError`. -/
def vGt : Value → Value → Except PyErr Bool
  | Value.num x, Value.num y => Except.ok (decide (x > y))
  | Value.str a, Value.str b => Except.ok (decide (b < a))
  | _, _ => Except.error PyErr.typeError

/-- Python division: `TypeError` on non-numbers, `ZeroDivisionError` on a zero
divisor, the quotient otherwise. -/
def vDiv : Value → Value → Except PyErr Value
  | Value.num x, Value.num y =>
      if y = 0 then Except.error PyErr.zeroDivisionError
      else Except.ok (Value.num (x / y))
  | _, _ => Except.error PyErr.typeError

/-- A typed wide-form input row, with the columns the core reads.
(The CSV carries further columns — `Historical_Sales`, ratings, … — but
neither `compute_stage_metrics` nor the reshape/selection reads them.) -/
structure ProductRecord where
  Product_ID : String
  Category : String
  Season : String
  Product_Name : String
  Brand : String
  Original_Price : ℚ
  Stock_Level : ℚ
  Markdown_1 : ℚ
  Markdown_2 : ℚ
  Markdown_3 : ℚ
  Markdown_4 : ℚ
  Sales_After_M1 : ℚ
  Sales_After_M2 : ℚ
  Sales_After_M3 : ℚ
  Sales_After_M4 : ℚ
deriving DecidableEq

/-- A long-form output row of `compute_stage_metrics`, with exactly the keys
the source appends. -/
structure StageMetric where
  Category : String
  Season : String
  Product_Name : String
  Brand : String
  Stage : String
  Markdown : ℚ
  Sales : ℚ
  Revenue : ℚ
  Sell_through : ℚ
deriving DecidableEq

/-- One entry of the stage/column-pair table the source loops over. -/
structure StageCol where
  stage : String
  md : ProductRecord → ℚ
  sales : ProductRecord → ℚ

/-- The four `(stage, markdown column, sales column)` triples, in source order. -/
def stageCols : List StageCol :=
  [⟨"M1", fun r => r.Markdown_1, fun r => r.Sales_After_M1⟩,
   ⟨"M2", fun r => r.Markdown_2, fun r => r.Sales_After_M2⟩,
   ⟨"M3", fun r => r.Markdown_3, fun r => r.Sales_After_M3⟩,
   ⟨"M4", fun r => r.Markdown_4, fun r => r.Sales_After_M4⟩]

/-- The record appended for one input row and one stage triple
(body of the inner loop of `compute_stage_metrics`). -/
def mkRow (row : ProductRecord) (c : StageCol) : StageMetric :=
  let markdown := c.md row
  let sales := c.sales row
  let price_after := row.Original_Price * (1 - markdown)
  let revenue := price_after * sales
  let sell_through := if row.Stock_Level > 0 then sales / row.Stock_Level else 0
  { Category := row.Category, Season := row.Season,
    Product_Name := row.Product_Name, Brand := row.Brand,
    Stage := c.stage, Markdown := markdown, Sales := sales,
    Revenue := revenue, Sell_through := sell_through }

/-- `compute_stage_metrics` of `markdown_metrics.py`: the nested row/stage
loops appending records, as a flat map. -/
def compute_stage_metrics (df : List ProductRecord) : List StageMetric :=
  df.flatMap (fun row => stageCols.map (mkRow row))

/-- The output row of record `row` for the `i`-th stage (0-based: `M(i+1)`). -/
def stageRow (row : ProductRecord) (i : Fin 4) : StageMetric :=
  mkRow row (stageCols.get ⟨i.val, i.isLt⟩)

/-- The markdown fraction of record `row` at the `i`-th stage. -/
def markdownAt (row : ProductRecord) (i : Fin 4) : ℚ :=
  (stageCols.get ⟨i.val, i.isLt⟩).md row

/-- The after-stage sales of record `row` at the `i`-th stage. -/
def salesAt (row : ProductRecord) (i : Fin 4) : ℚ :=
  (stageCols.get ⟨i.val, i.isLt⟩).sales row

/-- A row of the reshaped app frame `markdown_df` (`streamlit_app.py`),
with exactly the keys that loop appends. -/
structure AppRow where
  Product_ID : String
  Category : String
  Season : String
  Brand : String
  Stage : String
  Markdown : ℚ
  Sales : ℚ
  Revenue : ℚ
  Original_Price : ℚ
deriving DecidableEq

/-- The record appended by the reshape loop of the app for one row and one stage.
(The source guards `if markdown_col in row and sales_col in row`; on the typed
record both columns always exist, so the guard is always true here.) -/
def appStageRow (row : ProductRecord) (c : StageCol) : AppRow :=
  { Product_ID := row.Product_ID, Category := row.Category,
    Season := row.Season, Brand := row.Brand,
    Stage := c.stage, Markdown := c.md row, Sales := c.sales row,
    Revenue := row.Original_Price * (1 - c.md row) * c.sales row,
    Original_Price := row.Original_Price }

/-- `markdown_data` of `streamlit_app.py`: the reshape loop over the filtered
frame. -/
def markdown_data (df : List ProductRecord) : List AppRow :=
  df.flatMap (fun row => stageCols.map (appStageRow row))

/-- The app row of record `row` for the `i`-th stage. -/
def appRowAt (row : ProductRecord) (i : Fin 4) : AppRow :=
  appStageRow row (stageCols.get ⟨i.val, i.isLt⟩)

/-- Pandas `Series.idxmax` followed by `.loc`, restricted to one group: the
first row attaining the maximum of `v` (pandas `idxmax` documents that ties
resolve to the first occurrence), `none` on an empty list. -/
def idxmaxRow {α : Type} (v : α → ℚ) : List α → Option α
  | [] => none
  | a :: t => some (t.foldl (fun best x => if v x > v best then x else best) a)

/-- `best_per_product` of `streamlit_app.py`:
`markdown_df.loc[markdown_df.groupby("Product_ID")["Revenue"].idxmax()]` —
one row per distinct `Product_ID`, the first row of the group attaining the
maximum `Revenue` of the group.  (Pandas emits the groups sorted by key; no claim
below depends on the order of groups, so the deduplicated first-occurrence
key order is used here.) -/
def best_per_product (rows : List AppRow) : List AppRow :=
  ((rows.map (fun r => r.Product_ID)).dedup).filterMap
    (fun p => idxmaxRow (fun r => r.Revenue) (rows.filter (fun r => r.Product_ID = p)))

/-- `best_per_product` as invoked on a frame built from a list of records:
`pd.DataFrame([])` has no columns at all, so on zero rows
`markdown_df.groupby("Product_ID")` raises `KeyError("Product_ID")`. -/
def best_per_productE (rows : List AppRow) : Except PyErr (List AppRow) :=
  match rows with
  | [] => Except.error (PyErr.keyError "Product_ID")
  | _ => Except.ok (best_per_product rows)

/-- Sum of the `Revenue` column of a list of app rows. -/
def sumRevenue (rows : List AppRow) : ℚ :=
  (rows.map (fun r => r.Revenue)).sum

/-- `groupby("Category")["Revenue"].sum()` read at key `c`. -/
def category_revenue (rows : List AppRow) (c : String) : ℚ :=
  sumRevenue (rows.filter (fun r => r.Category = c))

/-- `groupby("Product_ID")["Revenue"].sum()` read at key `p`. -/
def product_revenue (rows : List AppRow) (p : String) : ℚ :=
  sumRevenue (rows.filter (fun r => r.Product_ID = p))

/-- The distinct product identifiers occurring among the rows of category `c`. -/
def productsInCategory (rows : List AppRow) (c : String) : Finset String :=
  ((rows.filter (fun r => r.Category = c)).map (fun r => r.Product_ID)).toFinset

/-- Modelled from the spec: the `StageSelector` with the `maximize
SellThrough` objective over one group.  The source only ever arg-maxes
`Revenue`; the contract in the spec also names a sell-through objective, embedded
here with the same first-max selection rule. -/
def best_by_sell_through (rows : List StageMetric) : Option StageMetric :=
  idxmaxRow (fun m => m.Sell_through) rows

/-- The four `(stage, markdown column, sales column)` name triples of the
source loop, for the dynamic model. -/
def stageColNames : List (String × String × String) :=
  [("M1", "Markdown_1", "Sales_After_M1"),
   ("M2", "Markdown_2", "Sales_After_M2"),
   ("M3", "Markdown_3", "Sales_After_M3"),
   ("M4", "Markdown_4", "Sales_After_M4")]

/-- Fail-fast left-to-right traversal, as the Python loop over rows/stages. -/
def mapME {α β : Type} (f : α → Except PyErr β) : List α → Except PyErr (List β)
  | [] => Except.ok []
  | a :: t => do
    let b ← f a
    let bs ← mapME f t
    pure (b :: bs)

/-- An output record of the dynamic model: the carried text columns keep
whatever value the input row held. -/
structure DynMetric where
  Category : Value
  Season : Value
  Product_Name : Value
  Brand : Value
  Stage : String
  Markdown : Value
  Sales : Value
  Revenue : Value
  Sell_through : Value
deriving DecidableEq

/-- The conditional expression `sales / stock if stock > 0 else 0.0`, given
the already-evaluated truth value `c` of `stock > 0`: the division runs only
when the guard held. -/
def guardedDiv (c : Bool) (sales stock : Value) : Except PyErr Value :=
  if c then vDiv sales stock else pure (Value.num 0)

/-- The inner-loop body of `compute_stage_metrics` over a dynamic row, with
the evaluation order of the source: fetch markdown, fetch sales, fetch
`Original_Price`, compute `price_after`, `revenue`, evaluate the
`stock > 0` guard, divide only when it holds, then fetch the carried text
columns while building the appended record. -/
def evalStage (row : Dict) (stock : Value) (t : String × String × String) :
    Except PyErr DynMetric := do
  let markdown ← dget row t.2.1
  let sales ← dget row t.2.2
  let op ← dget row "Original_Price"
  let onem ← vSub (Value.num 1) markdown
  let price_after ← vMul op onem
  let revenue ← vMul price_after sales
  let c ← vGt stock (Value.num 0)
  let sell_through ← guardedDiv c sales stock
  let cat ← dget row "Category"
  let sea ← dget row "Season"
  let pn ← dget row "Product_Name"
  let br ← dget row "Brand"
  pure { Category := cat, Season := sea, Product_Name := pn, Brand := br,
         Stage := t.1, Markdown := markdown, Sales := sales,
         Revenue := revenue, Sell_through := sell_through }

/-- The outer-loop body: `stock = row["Stock_Level"]` then the four stages. -/
def evalRow (row : Dict) : Except PyErr (List DynMetric) := do
  let stock ← dget row "Stock_Level"
  mapME (evalStage row stock) stageColNames

/-- `compute_stage_metrics` over dynamic rows: the metrics in row-major
stage order, or the first Python exception the loop hits. -/
def compute_stage_metrics_dyn (df : List Dict) : Except PyErr (List DynMetric) := do
  let blocks ← mapME evalRow df
  pure blocks.flatten

/-- The four markdown columns, which must be numeric for the computation to
succeed (each feeds `1 - markdown`, and number-minus-string raises). -/
def markdownColumns : List String :=
  ["Markdown_1", "Markdown_2", "Markdown_3", "Markdown_4"]

/-- Every column the computation reads from a row: all must be present for
it to succeed, since each is fetched on the success path. -/
def requiredColumns : List String :=
  ["Stock_Level", "Original_Price",
   "Markdown_1", "Markdown_2", "Markdown_3", "Markdown_4",
   "Sales_After_M1", "Sales_After_M2", "Sales_After_M3", "Sales_After_M4",
   "Category", "Season", "Product_Name", "Brand"]

/-- The worked single-product example of the spec: price 100, markdowns
10/20/30/40 percent, sales 10/12/15/8, stock 50. -/
def exampleRecord : ProductRecord :=
  { Product_ID := "P1", Category := "Tops", Season := "Summer",
    Product_Name := "Shirt", Brand := "Zara",
    Original_Price := 100, Stock_Level := 50,
    Markdown_1 := 1/10, Markdown_2 := 1/5, Markdown_3 := 3/10, Markdown_4 := 2/5,
    Sales_After_M1 := 10, Sales_After_M2 := 12, Sales_After_M3 := 15,
    Sales_After_M4 := 8 }

/-- Like `exampleRecord` but with every stage column other than stage `M2`
changed (identity, price, stock and the `M2` pair agree). -/
def exampleRecordAlt : ProductRecord :=
  { exampleRecord with
    Markdown_1 := 0, Markdown_3 := 1/2, Markdown_4 := 1/4,
    Sales_After_M1 := 3, Sales_After_M3 := 4, Sales_After_M4 := 5 }

/-- A second, unrelated record used as surrounding context. -/
def otherRecord : ProductRecord :=
  { Product_ID := "P2", Category := "Shoes", Season := "Winter",
    Product_Name := "Boot", Brand := "Nike",
    Original_Price := 80, Stock_Level := 0,
    Markdown_1 := 1/4, Markdown_2 := 1/2, Markdown_3 := 3/4, Markdown_4 := 1,
    Sales_After_M1 := 1, Sales_After_M2 := 2, Sales_After_M3 := 3,
    Sales_After_M4 := 4 }

/-- A variant of `otherRecord` with different contents everywhere. -/
def otherRecordAlt : ProductRecord :=
  { Product_ID := "P9", Category := "Bags", Season := "Fall",
    Product_Name := "Tote", Brand := "Gap",
    Original_Price := 33, Stock_Level := 7,
    Markdown_1 := 0, Markdown_2 := 0, Markdown_3 := 0, Markdown_4 := 0,
    Sales_After_M1 := 9, Sales_After_M2 := 9, Sales_After_M3 := 9,
    Sales_After_M4 := 9 }

/-- A dynamic row with every required column except `Stock_Level`. -/
def rowMissingStock : Dict :=
  [("Category", Value.str "Tops"), ("Season", Value.str "Summer"),
   ("Product_Name", Value.str "Shirt"), ("Brand", Value.str "Zara"),
   ("Original_Price", Value.num 100),
   ("Markdown_1", Value.num 0), ("Markdown_2", Value.num 0),
   ("Markdown_3", Value.num 0), ("Markdown_4", Value.num 0),
   ("Sales_After_M1", Value.num 1), ("Sales_After_M2", Value.num 2),
   ("Sales_After_M3", Value.num 3), ("Sales_After_M4", Value.num 4)]

/-- A dynamic row whose `Original_Price` is the string `"abc"` while the
markdowns are the integer 0, the sales the integer 5 and the stock 10.
Python runs this row to completion: `price_after = "abc" * (1 - 0) = "abc"`
and `revenue = "abc" * 5 = "abcabcabcabcabc"` by sequence repetition, so a
non-numeric required field need not make the computation fail. -/
def rowStrPrice : Dict :=
  [("Category", Value.str "Tops"), ("Season", Value.str "Summer"),
   ("Product_Name", Value.str "Shirt"), ("Brand", Value.str "Zara"),
   ("Original_Price", Value.str "abc"),
   ("Stock_Level", Value.num 10),
   ("Markdown_1", Value.num 0), ("Markdown_2", Value.num 0),
   ("Markdown_3", Value.num 0), ("Markdown_4", Value.num 0),
   ("Sales_After_M1", Value.num 5), ("Sales_After_M2", Value.num 5),
   ("Sales_After_M3", Value.num 5), ("Sales_After_M4", Value.num 5)]

/-- A concrete app-row constructor for aggregation inputs. -/
def plainAppRow (pid cat : String) (rev : ℚ) : AppRow :=
  { Product_ID := pid, Category := cat, Season := "S", Brand := "B",
    Stage := "M1", Markdown := 0, Sales := 0, Revenue := rev,
    Original_Price := 0 }

/-- Aggregation witness rows: three products across two categories, one
product with two rows. -/
def aggRows : List AppRow :=
  [plainAppRow "P1" "Tops" 100, plainAppRow "P1" "Tops" 200,
   plainAppRow "P2" "Tops" 50, plainAppRow "P3" "Shoes" 70]

theorem exc_bind_ok {α β : Type} (a : α) (f : α → Except PyErr β) :
    (Except.ok a >>= f) = f a := rfl

theorem exc_bind_error {α β : Type} (e : PyErr) (f : α → Except PyErr β) :
    ((Except.error e : Except PyErr α) >>= f) = Except.error e := rfl

theorem bind_ok_elim {α β : Type} {x : Except PyErr α} {f : α → Except PyErr β} {b : β}
    (h : (x >>= f) = Except.ok b) : ∃ a, x = Except.ok a ∧ f a = Except.ok b := by
  cases x with
  | error e => rw [exc_bind_error] at h; exact absurd h (by simp)
  | ok a => exact ⟨a, rfl, by rwa [exc_bind_ok] at h⟩

theorem bind_err_elim {α β : Type} {x : Except PyErr α} {f : α → Except PyErr β} {e : PyErr}
    (h : (x >>= f) = Except.error e) :
    x = Except.error e ∨ ∃ a, x = Except.ok a ∧ f a = Except.error e := by
  cases x with
  | error e2 =>
    rw [exc_bind_error] at h
    injection h with h2
    exact Or.inl (by rw [h2])
  | ok a => exact Or.inr ⟨a, rfl, by rwa [exc_bind_ok] at h⟩

theorem exc_pure_eq {α : Type} (a : α) : (pure a : Except PyErr α) = Except.ok a := rfl

theorem dget_ok {row : Dict} {k : String} {v : Value}
    (h : dget row k = Except.ok v) : dlookup k row = some v := by
  unfold dget at h
  cases hl : dlookup k row <;> rw [hl] at h <;> simp_all

theorem dget_err {row : Dict} {k : String} {e : PyErr}
    (h : dget row k = Except.error e) : e = PyErr.keyError k := by
  unfold dget at h
  cases hl : dlookup k row <;> rw [hl] at h <;> simp_all

theorem dget_ok_isSome {row : Dict} {k : String} {v : Value}
    (h : dget row k = Except.ok v) : (dlookup k row).isSome = true := by
  rw [dget_ok h]; rfl

theorem vSub_err {a b : Value} {e : PyErr}
    (h : vSub a b = Except.error e) : e = PyErr.typeError := by
  cases a <;> cases b <;> simp_all [vSub]

theorem vSub_ok_num {x : ℚ} {a : Value} {v : Value}
    (h : vSub (Value.num x) a = Except.ok v) : ∃ q, a = Value.num q := by
  cases a with
  | num q => exact ⟨q, rfl⟩
  | str s => simp [vSub] at h

theorem vMul_err {a b : Value} {e : PyErr}
    (h : vMul a b = Except.error e) : e = PyErr.typeError := by
  cases a with
  | num x =>
    cases b with
    | num y => simp [vMul] at h
    | str s =>
      simp only [vMul] at h
      split_ifs at h
      simp_all
  | str s =>
    cases b with
    | num y =>
      simp only [vMul] at h
      split_ifs at h
      simp_all
    | str t =>
      simp only [vMul] at h
      simp at h
      exact h.symm

theorem vGt_err {a b : Value} {e : PyErr}
    (h : vGt a b = Except.error e) : e = PyErr.typeError := by
  cases a <;> cases b <;> simp_all [vGt]

theorem vGt_num0_ok {a : Value} {c : Bool}
    (h : vGt a (Value.num 0) = Except.ok c) : ∃ q, a = Value.num q := by
  cases a with
  | num x => exact ⟨x, rfl⟩
  | str s => simp [vGt] at h

theorem vGt_true {x y : ℚ} (h : vGt (Value.num x) (Value.num y) = Except.ok true) :
    x > y := by
  simp [vGt] at h
  exact h

theorem vDiv_ok_of_ne {x y : ℚ} (h : y ≠ 0) :
    vDiv (Value.num x) (Value.num y) = Except.ok (Value.num (x / y)) := by
  simp [vDiv, h]

theorem guardedDiv_err {c : Bool} {sales stock : Value} {e : PyErr}
    (h : guardedDiv c sales stock = Except.error e) :
    c = true ∧ vDiv sales stock = Except.error e := by
  cases c with
  | false =>
    rw [guardedDiv, if_neg (by simp), exc_pure_eq] at h
    exact absurd h (by simp)
  | true => exact ⟨rfl, by rwa [guardedDiv, if_pos rfl] at h⟩

theorem evalStage_err {row : Dict} {stock : Value} {t : String × String × String}
    {e : PyErr} (h : evalStage row stock t = Except.error e) :
    (∃ k, e = PyErr.keyError k) ∨ e = PyErr.typeError := by
  unfold evalStage at h
  rcases bind_err_elim h with h1 | ⟨markdown, hmd, h⟩
  · exact Or.inl ⟨_, dget_err h1⟩
  rcases bind_err_elim h with h1 | ⟨sales, hsl, h⟩
  · exact Or.inl ⟨_, dget_err h1⟩
  rcases bind_err_elim h with h1 | ⟨op, hop, h⟩
  · exact Or.inl ⟨_, dget_err h1⟩
  rcases bind_err_elim h with h1 | ⟨onem, honem, h⟩
  · exact Or.inr (vSub_err h1)
  rcases bind_err_elim h with h1 | ⟨pa, hpa, h⟩
  · exact Or.inr (vMul_err h1)
  rcases bind_err_elim h with h1 | ⟨rev, hrev, h⟩
  · exact Or.inr (vMul_err h1)
  rcases bind_err_elim h with h1 | ⟨c, hc, h⟩
  · exact Or.inr (vGt_err h1)
  rcases bind_err_elim h with h1 | ⟨sth, hsth, h⟩
  · obtain ⟨hct, hdv⟩ := guardedDiv_err h1
    subst hct
    obtain ⟨qk, hqk⟩ := vGt_num0_ok hc
    subst hqk
    have hgt : qk > 0 := vGt_true hc
    cases sales with
    | num s =>
      exfalso
      rw [vDiv_ok_of_ne (ne_of_gt hgt)] at hdv
      exact absurd hdv (by simp)
    | str s =>
      refine Or.inr ?_
      have hts : vDiv (Value.str s) (Value.num qk) = Except.error PyErr.typeError := rfl
      rw [hts] at hdv
      injection hdv with h2
      exact h2.symm
  rcases bind_err_elim h with h1 | ⟨cat, hcat, h⟩
  · exact Or.inl ⟨_, dget_err h1⟩
  rcases bind_err_elim h with h1 | ⟨sea, hsea, h⟩
  · exact Or.inl ⟨_, dget_err h1⟩
  rcases bind_err_elim h with h1 | ⟨pn, hpn, h⟩
  · exact Or.inl ⟨_, dget_err h1⟩
  rcases bind_err_elim h with h1 | ⟨br, hbr, h⟩
  · exact Or.inl ⟨_, dget_err h1⟩
  · rw [exc_pure_eq] at h
    exact absurd h (by simp)

theorem isNumO_isSome {o : Option Value} (h : isNumO o = true) : o.isSome = true := by
  cases o with
  | none => simp [isNumO] at h
  | some v => rfl

theorem evalStage_ok_fields {row : Dict} {stock : Value} {t : String × String × String}
    {m : DynMetric} (h : evalStage row stock t = Except.ok m) :
    isNumO (dlookup t.2.1 row) = true ∧ (dlookup t.2.2 row).isSome = true ∧
    (dlookup "Original_Price" row).isSome = true ∧ (∃ q, stock = Value.num q) ∧
    (dlookup "Category" row).isSome = true ∧ (dlookup "Season" row).isSome = true ∧
    (dlookup "Product_Name" row).isSome = true ∧ (dlookup "Brand" row).isSome = true := by
  unfold evalStage at h
  obtain ⟨markdown, hmd, h⟩ := bind_ok_elim h
  obtain ⟨sales, hsl, h⟩ := bind_ok_elim h
  obtain ⟨op, hop, h⟩ := bind_ok_elim h
  obtain ⟨onem, honem, h⟩ := bind_ok_elim h
  obtain ⟨pa, hpa, h⟩ := bind_ok_elim h
  obtain ⟨rev, hrev, h⟩ := bind_ok_elim h
  obtain ⟨c, hc, h⟩ := bind_ok_elim h
  obtain ⟨sth, hsth, h⟩ := bind_ok_elim h
  obtain ⟨cat, hcat, h⟩ := bind_ok_elim h
  obtain ⟨sea, hsea, h⟩ := bind_ok_elim h
  obtain ⟨pn, hpn, h⟩ := bind_ok_elim h
  obtain ⟨br, hbr, h⟩ := bind_ok_elim h
  obtain ⟨qm, hqm⟩ := vSub_ok_num honem
  obtain ⟨qk, hqk⟩ := vGt_num0_ok hc
  refine ⟨?_, dget_ok_isSome hsl, dget_ok_isSome hop, ⟨qk, hqk⟩,
    dget_ok_isSome hcat, dget_ok_isSome hsea, dget_ok_isSome hpn,
    dget_ok_isSome hbr⟩
  rw [dget_ok hmd, hqm]
  rfl

theorem mapME_err {α β : Type} {f : α → Except PyErr β} {l : List α} {e : PyErr}
    (h : mapME f l = Except.error e) : ∃ a ∈ l, f a = Except.error e := by
  induction l with
  | nil => simp [mapME] at h
  | cons a t ih =>
    simp only [mapME] at h
    rcases bind_err_elim h with h1 | ⟨b, hb, h⟩
    · exact ⟨a, by simp, h1⟩
    rcases bind_err_elim h with h1 | ⟨bs, hbs, h⟩
    · obtain ⟨x, hx, hfx⟩ := ih h1
      exact ⟨x, by simp [hx], hfx⟩
    · rw [exc_pure_eq] at h
      exact absurd h (by simp)

theorem mapME_ok_forall {α β : Type} {f : α → Except PyErr β} {l : List α} {bs : List β}
    (h : mapME f l = Except.ok bs) : ∀ a ∈ l, ∃ b, f a = Except.ok b := by
  induction l generalizing bs with
  | nil => simp
  | cons a t ih =>
    simp only [mapME] at h
    obtain ⟨b, hb, h⟩ := bind_ok_elim h
    obtain ⟨bs2, hbs2, h⟩ := bind_ok_elim h
    intro x hx
    rcases List.mem_cons.mp hx with rfl | hx2
    · exact ⟨b, hb⟩
    · exact ih hbs2 x hx2

theorem compute_dyn_err {df : List Dict} {e : PyErr}
    (h : compute_stage_metrics_dyn df = Except.error e) :
    (∃ k, e = PyErr.keyError k) ∨ e = PyErr.typeError := by
  unfold compute_stage_metrics_dyn at h
  rcases bind_err_elim h with h1 | ⟨blocks, hb, h⟩
  · obtain ⟨row, hrow, hre⟩ := mapME_err h1
    unfold evalRow at hre
    rcases bind_err_elim hre with h2 | ⟨stock, hst, h2⟩
    · exact Or.inl ⟨_, dget_err h2⟩
    · obtain ⟨t, ht, hte⟩ := mapME_err h2
      exact evalStage_err hte
  · rw [exc_pure_eq] at h
    exact absurd h (by simp)

theorem compute_dyn_ok_fields {d : Dict} {out : List DynMetric}
    (h : compute_stage_metrics_dyn [d] = Except.ok out) :
    (∀ f ∈ requiredColumns, (dlookup f d).isSome = true) ∧
    (∀ f ∈ markdownColumns, isNumO (dlookup f d) = true) ∧
    isNumO (dlookup "Stock_Level" d) = true := by
  unfold compute_stage_metrics_dyn at h
  obtain ⟨blocks, hb, -⟩ := bind_ok_elim h
  obtain ⟨b, hbrow⟩ := mapME_ok_forall hb d (by simp)
  unfold evalRow at hbrow
  obtain ⟨stock, hst, h2⟩ := bind_ok_elim hbrow
  have hall := mapME_ok_forall h2
  obtain ⟨m1, hm1⟩ := hall ("M1", "Markdown_1", "Sales_After_M1") (by simp [stageColNames])
  obtain ⟨m2, hm2⟩ := hall ("M2", "Markdown_2", "Sales_After_M2") (by simp [stageColNames])
  obtain ⟨m3, hm3⟩ := hall ("M3", "Markdown_3", "Sales_After_M3") (by simp [stageColNames])
  obtain ⟨m4, hm4⟩ := hall ("M4", "Markdown_4", "Sales_After_M4") (by simp [stageColNames])
  have f1 := evalStage_ok_fields hm1
  have f2 := evalStage_ok_fields hm2
  have f3 := evalStage_ok_fields hm3
  have f4 := evalStage_ok_fields hm4
  have hstk : isNumO (dlookup "Stock_Level" d) = true := by
    obtain ⟨q, hq⟩ := f1.2.2.2.1
    rw [dget_ok hst, hq]
    rfl
  refine ⟨?_, ?_, hstk⟩
  · intro f hf
    simp only [requiredColumns, List.mem_cons, List.not_mem_nil, or_false] at hf
    rcases hf with rfl | rfl | rfl | rfl | rfl | rfl | rfl | rfl | rfl | rfl
      | rfl | rfl | rfl | rfl
    · exact dget_ok_isSome hst
    · exact f1.2.2.1
    · exact isNumO_isSome f1.1
    · exact isNumO_isSome f2.1
    · exact isNumO_isSome f3.1
    · exact isNumO_isSome f4.1
    · exact f1.2.1
    · exact f2.2.1
    · exact f3.2.1
    · exact f4.2.1
    · exact f1.2.2.2.2.1
    · exact f1.2.2.2.2.2.1
    · exact f1.2.2.2.2.2.2.1
    · exact f1.2.2.2.2.2.2.2
  · intro f hf
    simp only [markdownColumns, List.mem_cons, List.not_mem_nil, or_false] at hf
    rcases hf with rfl | rfl | rfl | rfl
    · exact f1.1
    · exact f2.1
    · exact f3.1
    · exact f4.1

theorem compute_cons (a : ProductRecord) (t : List ProductRecord) :
    compute_stage_metrics (a :: t) = (stageCols.map (mkRow a)) ++ compute_stage_metrics t :=
  rfl

theorem compute_length (rs : List ProductRecord) :
    (compute_stage_metrics rs).length = 4 * rs.length := by
  induction rs with
  | nil => rfl
  | cons a t ih =>
    have hb : (stageCols.map (mkRow a)).length = 4 := rfl
    rw [compute_cons, List.length_append, hb, ih, List.length_cons]
    omega

theorem compute_get (rs : List ProductRecord) (j : ℕ) (r : ProductRecord)
    (hr : rs.get? j = some r) (i : Fin 4) :
    (compute_stage_metrics rs).get? (4 * j + i.val) = some (stageRow r i) := by
  induction rs generalizing j with
  | nil => simp at hr
  | cons a t ih =>
    cases j with
    | zero =>
      simp only [List.get?_cons_zero, Option.some.injEq] at hr
      subst hr
      rw [compute_cons]
      have hb : (stageCols.map (mkRow a)).length = 4 := rfl
      have hlt : 4 * 0 + i.val < (stageCols.map (mkRow a)).length := by
        have := i.isLt
        omega
      rw [List.get?_append hlt]
      have h0 : 4 * 0 + i.val = i.val := by omega
      rw [h0]
      fin_cases i <;> rfl
    | succ j =>
      have hr2 : t.get? j = some r := hr
      rw [compute_cons]
      have hb : (stageCols.map (mkRow a)).length = 4 := rfl
      have hge : (stageCols.map (mkRow a)).length ≤ 4 * (j + 1) + i.val := by omega
      rw [List.get?_append_right hge]
      have hidx : 4 * (j + 1) + i.val - (stageCols.map (mkRow a)).length
          = 4 * j + i.val := by omega
      rw [hidx]
      exact ih j hr2

theorem stageRow_congr {r r2 : ProductRecord} (i : Fin 4)
    (hcat : r.Category = r2.Category) (hsea : r.Season = r2.Season)
    (hpn : r.Product_Name = r2.Product_Name) (hbr : r.Brand = r2.Brand)
    (hop : r.Original_Price = r2.Original_Price) (hst : r.Stock_Level = r2.Stock_Level)
    (hmd : markdownAt r i = markdownAt r2 i) (hsl : salesAt r i = salesAt r2 i) :
    stageRow r i = stageRow r2 i := by
  fin_cases i <;>
    simp_all [stageRow, mkRow, stageCols, markdownAt, salesAt]

theorem idxmax4_spec {α : Type} (v : α → ℚ) (g : Fin 4 → α) :
    ∃ i : Fin 4,
      idxmaxRow v [g 0, g 1, g 2, g 3] = some (g i) ∧
      (v (g 0) ≤ v (g i) ∧ v (g 1) ≤ v (g i) ∧ v (g 2) ≤ v (g i) ∧ v (g 3) ≤ v (g i)) ∧
      ((0 : Fin 4) < i → v (g 0) < v (g i)) ∧
      ((1 : Fin 4) < i → v (g 1) < v (g i)) ∧
      ((2 : Fin 4) < i → v (g 2) < v (g i)) := by
  simp only [idxmaxRow, List.foldl_cons, List.foldl_nil]
  by_cases h1 : v (g 1) > v (g 0)
  · rw [if_pos h1]
    by_cases h2 : v (g 2) > v (g 1)
    · rw [if_pos h2]
      by_cases h3 : v (g 3) > v (g 2)
      · rw [if_pos h3]
        exact ⟨3, rfl, ⟨by linarith, by linarith, by linarith, le_refl _⟩,
          fun h => by linarith, fun h => by linarith, fun h => by linarith⟩
      · rw [if_neg h3]
        push_neg at h3
        exact ⟨2, rfl, ⟨by linarith, by linarith, le_refl _, h3⟩,
          fun h => by linarith, fun h => by linarith, fun h => absurd h (by decide)⟩
    · rw [if_neg h2]
      push_neg at h2
      by_cases h3 : v (g 3) > v (g 1)
      · rw [if_pos h3]
        exact ⟨3, rfl, ⟨by linarith, by linarith, by linarith, le_refl _⟩,
          fun h => by linarith, fun h => by linarith, fun h => by linarith⟩
      · rw [if_neg h3]
        push_neg at h3
        exact ⟨1, rfl, ⟨by linarith, le_refl _, h2, h3⟩,
          fun h => by linarith, fun h => absurd h (by decide),
          fun h => absurd h (by decide)⟩
  · rw [if_neg h1]
    push_neg at h1
    by_cases h2 : v (g 2) > v (g 0)
    · rw [if_pos h2]
      by_cases h3 : v (g 3) > v (g 2)
      · rw [if_pos h3]
        exact ⟨3, rfl, ⟨by linarith, by linarith, by linarith, le_refl _⟩,
          fun h => by linarith, fun h => by linarith, fun h => by linarith⟩
      · rw [if_neg h3]
        push_neg at h3
        exact ⟨2, rfl, ⟨by linarith, by linarith, le_refl _, h3⟩,
          fun h => by linarith, fun h => by linarith, fun h => absurd h (by decide)⟩
    · rw [if_neg h2]
      push_neg at h2
      by_cases h3 : v (g 3) > v (g 0)
      · rw [if_pos h3]
        exact ⟨3, rfl, ⟨by linarith, by linarith, by linarith, le_refl _⟩,
          fun h => by linarith, fun h => by linarith, fun h => by linarith⟩
      · rw [if_neg h3]
        push_neg at h3
        exact ⟨0, rfl, ⟨le_refl _, h1, h2, h3⟩,
          fun h => absurd h (by decide), fun h => absurd h (by decide),
          fun h => absurd h (by decide)⟩

theorem dedup_four {α : Type} [DecidableEq α] (p : α) :
    ([p, p, p, p] : List α).dedup = [p] := by
  simp [List.dedup_cons_of_mem, List.mem_dedup]

theorem sum_fibers {α κ : Type} [DecidableEq κ] (f : α → κ) (v : α → ℚ) (l : List α) :
    ∑ p ∈ (l.map f).toFinset, ((l.filter (fun r => f r = p)).map v).sum
      = (l.map v).sum := by
  induction l with
  | nil => simp
  | cons a t ih =>
    have key : ∀ p, (((a :: t).filter (fun r => f r = p)).map v).sum
        = (if f a = p then v a else 0) + ((t.filter (fun r => f r = p)).map v).sum := by
      intro p
      by_cases h : f a = p <;> simp [List.filter_cons, h]
    have hins : ∑ p ∈ insert (f a) ((t.map f).toFinset),
        ((t.filter (fun r => f r = p)).map v).sum
        = ∑ p ∈ (t.map f).toFinset, ((t.filter (fun r => f r = p)).map v).sum := by
      apply Finset.sum_insert_of_eq_zero_if_not_mem
      intro hna
      have hnil : t.filter (fun r => f r = f a) = [] := by
        rw [List.filter_eq_nil]
        intro x hx
        simp only [decide_eq_true_eq]
        intro hfx
        exact hna (by rw [List.mem_toFinset, List.mem_map]; exact ⟨x, hx, hfx⟩)
      rw [hnil]
      rfl
    calc ∑ p ∈ ((a :: t).map f).toFinset, (((a :: t).filter (fun r => f r = p)).map v).sum
        = ∑ p ∈ insert (f a) ((t.map f).toFinset),
            ((if f a = p then v a else 0) + ((t.filter (fun r => f r = p)).map v).sum) := by
          rw [List.map_cons, List.toFinset_cons]
          exact Finset.sum_congr rfl (fun p _ => key p)
      _ = (∑ p ∈ insert (f a) ((t.map f).toFinset), if f a = p then v a else 0)
            + ∑ p ∈ insert (f a) ((t.map f).toFinset),
                ((t.filter (fun r => f r = p)).map v).sum := Finset.sum_add_distrib
      _ = v a + ∑ p ∈ (t.map f).toFinset, ((t.filter (fun r => f r = p)).map v).sum := by
          rw [Finset.sum_ite_eq, if_pos (Finset.mem_insert_self _ _), hins]
      _ = v a + (t.map v).sum := by rw [ih]
      _ = ((a :: t).map v).sum := by simp

theorem stageRow_mem (rs : List ProductRecord) (r : ProductRecord)
    (hr : r ∈ rs) (i : Fin 4) :
    stageRow r i ∈ compute_stage_metrics rs := by
  apply List.mem_flatMap.mpr
  refine ⟨r, hr, ?_⟩
  apply List.mem_map.mpr
  exact ⟨stageCols.get ⟨i.val, i.isLt⟩, List.get_mem _ _ _, rfl⟩

/-- C1: `compute_stage_metrics` returns exactly 4 rows per input record;
the row at flat position `4*j + i` is the `i`-th stage row of the `j`-th
input record (so blocks follow input order and rows within a block follow
stage order), and the four stage labels are `M1, M2, M3, M4` in order. -/
theorem c1_reshape_structure (rs : List ProductRecord) :
    (compute_stage_metrics rs).length = 4 * rs.length ∧
    (∀ (j : ℕ) (r : ProductRecord), rs.get? j = some r → ∀ i : Fin 4,
      (compute_stage_metrics rs).get? (4 * j + i.val) = some (stageRow r i)) ∧
    (∀ r : ProductRecord,
      (stageRow r 0).Stage = "M1" ∧ (stageRow r 1).Stage = "M2" ∧
      (stageRow r 2).Stage = "M3" ∧ (stageRow r 3).Stage = "M4") :=
  ⟨compute_length rs, fun j r hr i => compute_get rs j r hr i,
   fun _ => ⟨rfl, rfl, rfl, rfl⟩⟩

/-- C1 witness: on a concrete two-record input, the row at position 6 is the
third stage row of the second record. -/
theorem c1_reshape_structure_w :
    (compute_stage_metrics [exampleRecord, otherRecord]).get? 6
      = some (stageRow otherRecord 2) :=
  (c1_reshape_structure [exampleRecord, otherRecord]).2.1 1 otherRecord rfl 2

/-- C2: the Revenue of the stage-`i` row of record `r` equals
`original_price * (1 - markdown_i) * sales_after_i`, both in
`compute_stage_metrics` and in the `markdown_data` reshape of the app. -/
theorem c2_revenue_formula (rs : List ProductRecord) (r : ProductRecord)
    (hr : r ∈ rs) (i : Fin 4) :
    stageRow r i ∈ compute_stage_metrics rs ∧
    (stageRow r i).Revenue = r.Original_Price * (1 - markdownAt r i) * salesAt r i ∧
    (appRowAt r i).Revenue = r.Original_Price * (1 - markdownAt r i) * salesAt r i :=
  ⟨stageRow_mem rs r hr i, rfl, rfl⟩

/-- C2 witness: instantiated at the example record, stage `M3`. -/
theorem c2_revenue_formula_w :
    stageRow exampleRecord 2 ∈ compute_stage_metrics [exampleRecord] ∧
    (stageRow exampleRecord 2).Revenue
      = exampleRecord.Original_Price * (1 - markdownAt exampleRecord 2)
          * salesAt exampleRecord 2 ∧
    (appRowAt exampleRecord 2).Revenue
      = exampleRecord.Original_Price * (1 - markdownAt exampleRecord 2)
          * salesAt exampleRecord 2 :=
  c2_revenue_formula [exampleRecord] exampleRecord (List.mem_singleton.mpr rfl) 2

/-- C3: Sell_through is `sales / stock` when `stock > 0` and `0` whenever
`stock ≤ 0`; moreover the dynamic model never surfaces a
`ZeroDivisionError`, because the division is guarded. -/
theorem c3_sell_through_guard (rs : List ProductRecord) (r : ProductRecord)
    (hr : r ∈ rs) (i : Fin 4) :
    stageRow r i ∈ compute_stage_metrics rs ∧
    (0 < r.Stock_Level → (stageRow r i).Sell_through = salesAt r i / r.Stock_Level) ∧
    (r.Stock_Level ≤ 0 → (stageRow r i).Sell_through = 0) ∧
    (∀ df : List Dict, compute_stage_metrics_dyn df ≠ Except.error PyErr.zeroDivisionError) := by
  refine ⟨stageRow_mem rs r hr i, ?_, ?_, ?_⟩
  · intro h
    show (if r.Stock_Level > 0 then salesAt r i / r.Stock_Level else 0) = _
    rw [if_pos h]
  · intro h
    show (if r.Stock_Level > 0 then salesAt r i / r.Stock_Level else 0) = 0
    rw [if_neg (not_lt.mpr h)]
  · intro df hdf
    rcases compute_dyn_err hdf with ⟨k, hk⟩ | hk <;> simp at hk

/-- C3 witness: instantiated at `otherRecord` (whose stock level is 0),
stage `M4`. -/
theorem c3_sell_through_guard_w :
    stageRow otherRecord 3 ∈ compute_stage_metrics [otherRecord] ∧
    (0 < otherRecord.Stock_Level →
      (stageRow otherRecord 3).Sell_through = salesAt otherRecord 3 / otherRecord.Stock_Level) ∧
    (otherRecord.Stock_Level ≤ 0 → (stageRow otherRecord 3).Sell_through = 0) ∧
    (∀ df : List Dict, compute_stage_metrics_dyn df ≠ Except.error PyErr.zeroDivisionError) :=
  c3_sell_through_guard [otherRecord] otherRecord (List.mem_singleton.mpr rfl) 3

/-- C9: the output row at block `j`, stage `i` depends only on the identity
fields, original price, stock level and stage-`i` markdown/sales pair of
record `j` — two inputs agreeing there (but arbitrary elsewhere) produce the same
row at that position. -/
theorem c9_row_noninterference (rs rs2 : List ProductRecord) (j : ℕ)
    (r r2 : ProductRecord) (hr : rs.get? j = some r) (hr2 : rs2.get? j = some r2)
    (i : Fin 4)
    (hcat : r.Category = r2.Category) (hsea : r.Season = r2.Season)
    (hpn : r.Product_Name = r2.Product_Name) (hbr : r.Brand = r2.Brand)
    (hop : r.Original_Price = r2.Original_Price) (hst : r.Stock_Level = r2.Stock_Level)
    (hmd : markdownAt r i = markdownAt r2 i) (hsl : salesAt r i = salesAt r2 i) :
    (compute_stage_metrics rs).get? (4 * j + i.val)
      = (compute_stage_metrics rs2).get? (4 * j + i.val) := by
  rw [compute_get rs j r hr i, compute_get rs2 j r2 hr2 i,
      stageRow_congr i hcat hsea hpn hbr hop hst hmd hsl]

/-- C9 witness: two concrete inputs that agree only on the identity, price,
stock and stage-`M2` pair of record 0 (its other stage columns and the entire
record 1 differ) produce the same `M2` row of block 0. -/
theorem c9_row_noninterference_w :
    (compute_stage_metrics [exampleRecord, otherRecord]).get? 1
      = (compute_stage_metrics [exampleRecordAlt, otherRecordAlt]).get? 1 :=
  c9_row_noninterference [exampleRecord, otherRecord] [exampleRecordAlt, otherRecordAlt]
    0 exampleRecord exampleRecordAlt rfl rfl 1 rfl rfl rfl rfl rfl rfl rfl rfl

/-- C10: on an empty input, `compute_stage_metrics` returns an empty output
and the dynamic model returns it without an error. -/
theorem c10_empty_input_ok :
    compute_stage_metrics [] = [] ∧
    compute_stage_metrics_dyn [] = Except.ok [] :=
  ⟨rfl, rfl⟩

/-- C4: the per-group arg-max of `best_per_product` picks the earliest stage
among the revenue-maximal stages of the group of one product: the selected row is a
stage row `i` that is maximal, and every strictly earlier stage has strictly
smaller revenue — so on a tie at the maximum the earlier stage in the order
`M1 < M2 < M3 < M4` wins. -/
theorem c4_tie_break_earliest (r : ProductRecord) :
    ∃ i : Fin 4,
      best_per_product (markdown_data [r]) = [appRowAt r i] ∧
      (∀ k : Fin 4, (appRowAt r k).Revenue ≤ (appRowAt r i).Revenue) ∧
      (∀ k : Fin 4, k < i → (appRowAt r k).Revenue < (appRowAt r i).Revenue) := by
  obtain ⟨i, hsel, hle, h0, h1, h2⟩ :=
    idxmax4_spec (fun x => x.Revenue) (appRowAt r)
  have hmdd : markdown_data [r]
      = [appRowAt r 0, appRowAt r 1, appRowAt r 2, appRowAt r 3] := rfl
  refine ⟨i, ?_, ?_, ?_⟩
  · unfold best_per_product
    rw [hmdd]
    have hmap : ([appRowAt r 0, appRowAt r 1, appRowAt r 2, appRowAt r 3].map
        (fun x => x.Product_ID))
        = [r.Product_ID, r.Product_ID, r.Product_ID, r.Product_ID] := rfl
    rw [hmap, dedup_four]
    have hfil : ([appRowAt r 0, appRowAt r 1, appRowAt r 2, appRowAt r 3].filter
        (fun x => x.Product_ID = r.Product_ID))
        = [appRowAt r 0, appRowAt r 1, appRowAt r 2, appRowAt r 3] := by
      apply List.filter_eq_self.mpr
      intro x hx
      simp only [List.mem_cons, List.not_mem_nil, or_false] at hx
      rcases hx with rfl | rfl | rfl | rfl <;> exact decide_eq_true rfl
    simp only [List.filterMap_cons, List.filterMap_nil]
    rw [hfil, hsel]
  · intro k
    fin_cases k
    · exact hle.1
    · exact hle.2.1
    · exact hle.2.2.1
    · exact hle.2.2.2
  · intro k hk
    fin_cases k
    · exact h0 hk
    · exact h1 hk
    · exact h2 hk
    · exfalso
      have hi := i.isLt
      have hv : 3 < i.val := hk
      omega

/-- C4 witness: instantiated at the example record. -/
theorem c4_tie_break_earliest_w :
    ∃ i : Fin 4,
      best_per_product (markdown_data [exampleRecord]) = [appRowAt exampleRecord i] ∧
      (∀ k : Fin 4, (appRowAt exampleRecord k).Revenue
          ≤ (appRowAt exampleRecord i).Revenue) ∧
      (∀ k : Fin 4, k < i → (appRowAt exampleRecord k).Revenue
          < (appRowAt exampleRecord i).Revenue) :=
  c4_tie_break_earliest exampleRecord

/-- C7: on the worked example of the spec the four revenues are 900, 960, 1050,
480, the four sell-throughs are 1/5, 6/25, 3/10, 4/25, the best-revenue
stage is `M3` and the best-sell-through stage is `M3`. -/
theorem c7_worked_example :
    ((compute_stage_metrics [exampleRecord]).map (fun m => m.Revenue))
      = [900, 960, 1050, 480] ∧
    ((compute_stage_metrics [exampleRecord]).map (fun m => m.Sell_through))
      = [1/5, 6/25, 3/10, 4/25] ∧
    ((best_per_product (markdown_data [exampleRecord])).map (fun x => x.Stage))
      = ["M3"] ∧
    ((best_by_sell_through (compute_stage_metrics [exampleRecord])).map
        (fun m => m.Stage)) = some "M3" := by
  refine ⟨?_, ?_, ?_, ?_⟩ <;>
    norm_num [compute_stage_metrics, mkRow, stageCols, markdown_data, appStageRow,
      best_per_product, best_by_sell_through, idxmaxRow, exampleRecord, dedup_four,
      List.filterMap_cons, List.filterMap_nil, List.filter_cons, List.filter_nil,
      List.foldl_cons, List.foldl_nil]

/-- C8: summing Revenue grouped by category equals summing, over the
products occurring in that category, the per-product grouped Revenue sums —
provided (as for any frame produced by the reshape) a product identifier
determines its category. -/
theorem c8_category_aggregation (rows : List AppRow) (c : String)
    (hdep : ∀ r ∈ rows, ∀ r2 ∈ rows,
      r.Product_ID = r2.Product_ID → r.Category = r2.Category) :
    category_revenue rows c
      = ∑ p ∈ productsInCategory rows c, product_revenue rows p := by
  have hfib := sum_fibers (fun r => r.Product_ID) (fun r => r.Revenue)
      (rows.filter (fun r => r.Category = c))
  rw [category_revenue, sumRevenue, ← hfib]
  apply Finset.sum_congr rfl
  intro p hp
  simp only [productsInCategory, List.mem_toFinset, List.mem_map,
    List.mem_filter, decide_eq_true_eq] at hp
  obtain ⟨r0, ⟨hr0mem, hr0cat⟩, hr0pid⟩ := hp
  rw [product_revenue, sumRevenue]
  have hll : (rows.filter (fun r => r.Category = c)).filter
        (fun r => r.Product_ID = p)
      = rows.filter (fun r => r.Product_ID = p) := by
    rw [List.filter_filter]
    apply List.filter_congr
    intro x hx
    by_cases hxp : x.Product_ID = p
    · have hxc : x.Category = c := by
        rw [hdep x hx r0 hr0mem (by rw [hxp, hr0pid])]
        exact hr0cat
      simp [hxp, hxc]
    · simp [hxp]
  rw [hll]

/-- C8 witness: instantiated on four concrete rows (three products, two
categories) at category `Tops`. -/
theorem c8_category_aggregation_w :
    category_revenue aggRows "Tops"
      = ∑ p ∈ productsInCategory aggRows "Tops", product_revenue aggRows p :=
  c8_category_aggregation aggRows "Tops" (by decide)

/-- C5 counterexample: the claim fails on concrete inputs in both of its
directions.  A row lacking the required `Stock_Level` column fails with the
raw `KeyError("Stock_Level")` of pandas row indexing — not with a
`SchemaError`, which exists nowhere in the source.  And a row whose
`Original_Price` is the non-numeric string `"abc"` (with integer markdowns
0, sales 5 and stock 10) does not fail at all: Python
integer-times-string sequence repetition makes the computation return
normally, with the garbage string Revenue `"abcabcabcabcabc"` in every
stage row. -/
theorem c5_schema_error_cex :
    compute_stage_metrics_dyn [rowMissingStock]
      = Except.error (PyErr.keyError "Stock_Level") ∧
    compute_stage_metrics_dyn [rowMissingStock] ≠ Except.error PyErr.schemaError ∧
    (compute_stage_metrics_dyn [rowStrPrice]).map
        (fun out => out.map (fun m => m.Revenue))
      = Except.ok [Value.str "abcabcabcabcabc", Value.str "abcabcabcabcabc",
          Value.str "abcabcabcabcabc", Value.str "abcabcabcabcabc"] := by
  refine ⟨rfl, ?_, ?_⟩
  · intro h
    have hk : (Except.error (PyErr.keyError "Stock_Level") :
        Except PyErr (List DynMetric)) = Except.error PyErr.schemaError := by
      calc (Except.error (PyErr.keyError "Stock_Level") :
          Except PyErr (List DynMetric))
          = compute_stage_metrics_dyn [rowMissingStock] := rfl
        _ = Except.error PyErr.schemaError := h
    exact absurd hk (by simp)
  · simp [compute_stage_metrics_dyn, evalRow, evalStage, mapME, guardedDiv,
      dget, dlookup, rowStrPrice, stageColNames, vSub, vMul, vGt, vDiv,
      strRepeat, exc_bind_ok, exc_pure_eq, Except.map]

/-- C5 amended: when a required column of the input record is absent, or a
markdown or the stock level is not numeric, the computation fails — with a
raw Python error (`KeyError` for the missing column, `TypeError` from
number-minus-string or the string-versus-number comparison), never with a
`SchemaError`; but it does not reliably fail on every non-numeric required
field: a string `Original_Price` or sales value with integer counterparts
completes normally and yields garbage string Revenue through sequence
repetition (third conjunct of the counterexample). -/
theorem c5_missing_field_raw_error (d : Dict)
    (h : (∃ f ∈ requiredColumns, dlookup f d = none) ∨
         (∃ f ∈ markdownColumns, isNumO (dlookup f d) = false) ∨
         isNumO (dlookup "Stock_Level" d) = false) :
    ∃ e, compute_stage_metrics_dyn [d] = Except.error e ∧ e ≠ PyErr.schemaError := by
  cases hres : compute_stage_metrics_dyn [d] with
  | ok out =>
    exfalso
    obtain ⟨hpres, hmd, hstk⟩ := compute_dyn_ok_fields hres
    rcases h with ⟨f, hf1, hf2⟩ | ⟨f, hf1, hf2⟩ | hf
    · have hn := hpres f hf1
      rw [hf2] at hn
      exact absurd hn (by simp)
    · have hn := hmd f hf1
      rw [hf2] at hn
      exact absurd hn (by simp)
    · rw [hstk] at hf
      exact absurd hf (by simp)
  | error e =>
    refine ⟨e, rfl, ?_⟩
    rcases compute_dyn_err hres with ⟨k, rfl⟩ | rfl <;> simp

/-- C5 amended witness: instantiated at the row lacking `Stock_Level`. -/
theorem c5_missing_field_raw_error_w :
    ∃ e, compute_stage_metrics_dyn [rowMissingStock] = Except.error e ∧
      e ≠ PyErr.schemaError :=
  c5_missing_field_raw_error rowMissingStock
    (Or.inl ⟨"Stock_Level", by decide, by decide⟩)

/-- C6 counterexample: invoked on zero rows, the selection fails with the
raw `KeyError("Product_ID")` of grouping an empty (column-less) frame — not
with an `EmptyGroupError`, which exists nowhere in the source. -/
theorem c6_empty_selector_cex :
    best_per_productE [] = Except.error (PyErr.keyError "Product_ID") ∧
    best_per_productE [] ≠ Except.error PyErr.emptyGroupError := by
  refine ⟨rfl, ?_⟩
  intro h
  have hk : (Except.error (PyErr.keyError "Product_ID") :
      Except PyErr (List AppRow)) = Except.error PyErr.emptyGroupError := by
    calc (Except.error (PyErr.keyError "Product_ID") : Except PyErr (List AppRow))
        = best_per_productE [] := rfl
      _ = Except.error PyErr.emptyGroupError := h
  exact absurd hk (by simp)

/-- C6 amended: on zero input rows the selection raises (it never returns a
default or sentinel result), but the error is the raw
`KeyError("Product_ID")`, not a distinguished `EmptyGroupError`. -/
theorem c6_empty_selector_key_error :
    best_per_productE [] = Except.error (PyErr.keyError "Product_ID") ∧
    ∀ out : List AppRow, best_per_productE [] ≠ Except.ok out := by
  refine ⟨rfl, ?_⟩
  intro out h
  have hk : (Except.error (PyErr.keyError "Product_ID") :
      Except PyErr (List AppRow)) = Except.ok out := by
    calc (Except.error (PyErr.keyError "Product_ID") : Except PyErr (List AppRow))
        = best_per_productE [] := rfl
      _ = Except.ok out := h
  exact absurd hk (by simp)

end MarkdownOpt
